import Mathlib

/-!
Verification development for the Substance Designer MCP plugin
(`src/plugin/__init__.py`).  The definitions below are a shallow embedding of
the plugin's value-inference, type-coercion, port-validation, framing,
library-resolution, parameter-application and batch-graph-building code.
Host-API effects (node creation, property writes, connection creation) are
modelled by explicit oracles/state so that each handler becomes a pure
function whose observable outputs (results, error messages, traces of host
calls) can be reasoned about.
-/

deriving instance DecidableEq for Except

namespace SDMCP

/-- Whether `p` is an initial segment of `s` (on character lists; structural
so that concrete instances evaluate by `decide`). -/
def leadsWith : List Char → List Char → Bool
  | _, [] => true
  | [], _ :: _ => false
  | c :: cs, p :: ps => c == p && leadsWith cs ps

/-- Occurrence of `p` as a contiguous segment of `s`. -/
def containsSub : List Char → List Char → Bool
  | [], p => p.isEmpty
  | s@(_ :: rest), p => leadsWith s p || containsSub rest p

/-- Python `pat in s` (substring membership). -/
def strContains (s pat : String) : Bool :=
  containsSub s.data pat.data

/-- Python `s.startswith(pat)`. -/
def strStarts (s pat : String) : Bool :=
  leadsWith s.data pat.data

/-- ASCII lower-casing of one character (the identifiers the source
lower-cases are ASCII). -/
def charLower (c : Char) : Char :=
  if 'A' ≤ c ∧ c ≤ 'Z' then Char.ofNat (c.toNat + 32) else c

/-- Python `s.lower()`. -/
def strLower (s : String) : String :=
  String.mk (s.data.map charLower)

/-- Fuel-driven splitting of a character list on a nonempty separator
(Python `s.split(sep)`, non-overlapping, left to right).  One character is
consumed per step, so fuel `length + 1` always suffices. -/
def splitChars (sep : List Char) : Nat → List Char → List Char → List (List Char)
  | 0, acc, rest => [acc.reverse ++ rest]
  | _ + 1, acc, [] => [acc.reverse]
  | fuel + 1, acc, s@(c :: cs) =>
      if sep ≠ [] ∧ leadsWith s sep then
        acc.reverse :: splitChars sep fuel [] (s.drop sep.length)
      else splitChars sep fuel (c :: acc) cs

/-- Python `s.split(sep)` for nonempty `sep`. -/
def pySplit (s sep : String) : List String :=
  (splitChars sep.data (s.data.length + 1) [] s.data).map String.mk

/-- Python `a or b` for an optional string `a` and a string default `b`:
`None` and the empty string are falsy. -/
def pyOr (a : Option String) (b : String) : String :=
  match a with
  | some s => if s = "" then b else s
  | none => b

/-- Python `a or b` where both operands are optional strings: returns `a`
when `a` is truthy (non-`None`, nonempty), else returns `b` unchanged. -/
def pyOrOpt (a b : Option String) : Option String :=
  match a with
  | some s => if s = "" then b else some s
  | none => b

/-- Truthiness filter on an optional string: `some ""` and `none` are falsy. -/
def truthy (a : Option String) : Option String :=
  match a with
  | some s => if s = "" then none else some s
  | none => none

/-- Python `str(x)` on an optional string, as used in `"...".format(fa)`
where `fa` may be `None`. -/
def strOf (a : Option String) : String :=
  match a with
  | some s => s
  | none => "None"

/-- Lexicographic `≤` by code point on character lists (the order Python
`sorted` uses on strings). -/
def charListLe : List Char → List Char → Bool
  | [], _ => true
  | _ :: _, [] => false
  | a :: as, b :: bs =>
      if a.toNat < b.toNat then true
      else if b.toNat < a.toNat then false
      else charListLe as bs

/-- Lexicographic `≤` on strings. -/
def strLe (a b : String) : Bool := charListLe a.data b.data

/-- Insertion of a string into a sorted list (helper for Python `sorted`). -/
def insertStr (x : String) : List String → List String
  | [] => [x]
  | y :: ys => if strLe x y then x :: y :: ys else y :: insertStr x ys

/-- Python `sorted` on a list of strings (insertion sort). -/
def sortStr : List String → List String
  | [] => []
  | x :: xs => insertStr x (sortStr xs)

/-- Python `str(list_of_strings)`: `['a', 'b']`. -/
def pyListRepr (xs : List String) : String :=
  "[" ++ String.intercalate ", " (xs.map (fun s => "'" ++ s ++ "'")) ++ "]"

/-- A JSON-shaped wire value as decoded from the request payload
(Python scalars, lists and dicts).  Finite float payloads are modelled as
rationals; non-finite floats never occur in requests (they only matter on
the response side, `JVal` below). -/
inductive PyVal where
  | bool (b : Bool)
  | int (n : Int)
  | float (q : ℚ)
  | str (s : String)
  | list (xs : List PyVal)
  | dict (entries : List (String × PyVal))

/-- `_infer_type` (src/plugin/__init__.py:543-562): infer the SD value type
from the Python shape of a wire value.  A bare int infers to `"float"`;
2/3/4-element lists infer to float vectors; everything else falls through
to `"float"`. -/
def infer_type (value : PyVal) : String :=
  match value with
  | .bool _ => "bool"
  | .int _ => "float"
  | .float _ => "float"
  | .str _ => "string"
  | .list xs =>
      if xs.length = 2 then "float2"
      else if xs.length = 3 then "float3"
      else if xs.length = 4 then "float4"
      else "float"
  | .dict _ => "float"

/-- Python `isinstance(value, (list, tuple))`. -/
def PyVal.isListLike : PyVal → Bool
  | .list _ => true
  | _ => false

/-- Python `isinstance(value, (int, float)) and not isinstance(value, bool)`. -/
def PyVal.isNumScalar : PyVal → Bool
  | .int _ => true
  | .float _ => true
  | _ => false

/-- `_coerce_type` (src/plugin/__init__.py:565-607): re-coerce the inferred
type against the authoritative SD property type id.  Exact primitives win;
namespaced (`::`) ids are enum-like and coerce scalar floats to int; a
fallback keys on the substrings `"int"`/`"float"` in the type name. -/
def coerce_type (inferred_type : String) (value : PyVal) (sd_type_id : String) :
    String :=
  if sd_type_id = "" then inferred_type else
  let tid := strLower sd_type_id
  if tid = "int" then "int"
  else if tid = "float" then "float"
  else if tid = "bool" then "bool"
  else if tid = "string" then "string"
  else if tid = "float2" then "float2"
  else if tid = "float3" then "float3"
  else if tid = "float4" then "float4"
  else if tid = "int2" then "int2"
  else if tid = "int3" then "int3"
  else if tid = "int4" then "int4"
  else if tid = "colorrgba" then "color"
  else if tid = "colorrgb" then "float3"
  else if strStarts tid "sbs::" || strContains tid "::" then
    if inferred_type = "float" then
      if value.isNumScalar then "int" else inferred_type
    else inferred_type
  else if strContains tid "int" && !(strContains tid "float") then
    if inferred_type = "float" then "int"
    else if inferred_type = "float4" && value.isListLike then "int4"
    else if inferred_type = "float2" && value.isListLike then "int2"
    else inferred_type
  else inferred_type

/-- A boxed SD value, the result of `_make_sd_value` (one constructor per
`SDValue*` class used by the plugin). -/
inductive SDValue where
  | float (q : ℚ)
  | int (n : Int)
  | bool (b : Bool)
  | str (s : String)
  | float2 (x y : ℚ)
  | float3 (x y z : ℚ)
  | float4 (x y z w : ℚ)
  | color (r g b a : ℚ)
  | int2 (x y : Int)
  | int3 (x y z : Int)
  | int4 (x y z w : Int)
deriving DecidableEq

/-- Python `float(x)` truncation target: rational value of a scalar.
Numeric-string parsing is not modelled (no code path under test feeds a
string to `float()`); such inputs error like any other non-numeric. -/
def pyFloatConv (v : PyVal) : Except String ℚ :=
  match v with
  | .bool b => .ok (if b then 1 else 0)
  | .int n => .ok (n : ℚ)
  | .float q => .ok q
  | _ => .error "float() argument must be a number"

/-- Python `int(x)` for scalars: truncation toward zero for floats. -/
def pyIntConv (v : PyVal) : Except String Int :=
  match v with
  | .bool b => .ok (if b then 1 else 0)
  | .int n => .ok n
  | .float q => .ok (if q < 0 then ⌈q⌉ else ⌊q⌋)
  | _ => .error "int() argument must be a number"

/-- Python `bool(x)` (total). -/
def pyBoolConv (v : PyVal) : Bool :=
  match v with
  | .bool b => b
  | .int n => n != 0
  | .float q => q != 0
  | .str s => s != ""
  | .list xs => !xs.isEmpty
  | .dict es => !es.isEmpty

/-- Python `str(x)` as used by the `"string"` branch of `_make_sd_value`. -/
def pyStrConv (v : PyVal) : String :=
  match v with
  | .str s => s
  | .bool b => if b then "True" else "False"
  | .int n => toString n
  | _ => "<object>"

/-- Python `v[i]` on a list (raises `IndexError` when out of range). -/
def pyIndex (xs : List PyVal) (i : Nat) : Except String PyVal :=
  match xs.get? i with
  | some v => .ok v
  | none => .error "list index out of range"

/-- `v[i]` followed by `float(...)`. -/
def idxFloat (xs : List PyVal) (i : Nat) : Except String ℚ := do
  pyFloatConv (← pyIndex xs i)

/-- `v[i]` followed by `int(...)`. -/
def idxInt (xs : List PyVal) (i : Nat) : Except String Int := do
  pyIntConv (← pyIndex xs i)

/-- `CommandHandler._make_sd_value` (src/plugin/__init__.py:745-809): box a
wire value into the SD value matching `value_type`; scalars broadcast into
vector types; an unknown type raises `ValueError`. -/
def make_sd_value (value_type : String) (value : PyVal) :
    Except String SDValue := do
  let t := strLower value_type
  if t = "float" then return .float (← pyFloatConv value)
  else if t = "int" then return .int (← pyIntConv value)
  else if t = "bool" then return .bool (pyBoolConv value)
  else if t = "string" then return .str (pyStrConv value)
  else if t = "float2" then
    let v := match value with | .list xs => xs | _ => [value, value]
    return .float2 (← idxFloat v 0) (← idxFloat v 1)
  else if t = "float3" then
    let v := match value with | .list xs => xs | _ => [value, value, value]
    return .float3 (← idxFloat v 0) (← idxFloat v 1) (← idxFloat v 2)
  else if t = "float4" then
    let v := match value with | .list xs => xs | _ => [value, value, value, value]
    return .float4 (← idxFloat v 0) (← idxFloat v 1) (← idxFloat v 2) (← idxFloat v 3)
  else if t = "color" || t = "colorrgba" then
    let v := match value with | .list xs => xs | _ => [value, value, value, .float 1]
    let a ← if v.length > 3 then idxFloat v 3 else pure (1 : ℚ)
    return .color (← idxFloat v 0) (← idxFloat v 1) (← idxFloat v 2) a
  else if t = "int2" then
    let v := match value with | .list xs => xs | _ => [value, value]
    return .int2 (← idxInt v 0) (← idxInt v 1)
  else if t = "int3" then
    let v := match value with | .list xs => xs | _ => [value, value, value]
    return .int3 (← idxInt v 0) (← idxInt v 1) (← idxInt v 2)
  else if t = "int4" then
    let v := match value with | .list xs => xs | _ => [value, value, value, value]
    return .int4 (← idxInt v 0) (← idxInt v 1) (← idxInt v 2) (← idxInt v 3)
  else
    throw ("Unknown value_type '" ++ value_type ++
      "'. Valid: float, int, bool, string, float2, float3, float4, color, int2, int3, int4")

/-- `_SYSTEM_PARAMS` (src/plugin/__init__.py:98-101): system properties that
are never valid connection targets. -/
def SYSTEM_PARAMS : List String :=
  ["$outputsize", "$format", "$pixelsize", "$pixelratio",
   "$tiling", "$randomseed", "$time"]

/-- One entry of the static port registry: declared input and output port
identifiers for a node kind. -/
structure PortSpec where
  inputs : List String
  outputs : List String
deriving DecidableEq

/-- `ATOMIC_PORTS` (src/plugin/__init__.py:105-194): the static table of
known atomic node kinds and their ports. -/
def ATOMIC_PORTS : List (String × PortSpec) :=
  [ ("sbs::compositing::blend",
      ⟨["source", "destination", "opacity"], ["unique_filter_output"]⟩),
    ("sbs::compositing::levels", ⟨["input1"], ["unique_filter_output"]⟩),
    ("sbs::compositing::curve", ⟨["input1"], ["unique_filter_output"]⟩),
    ("sbs::compositing::hsl", ⟨["input1"], ["unique_filter_output"]⟩),
    ("sbs::compositing::blur", ⟨["input1"], ["unique_filter_output"]⟩),
    ("sbs::compositing::sharpen", ⟨["input1"], ["unique_filter_output"]⟩),
    ("sbs::compositing::warp",
      ⟨["input1", "inputgradient"], ["unique_filter_output"]⟩),
    ("sbs::compositing::directionalwarp",
      ⟨["input1", "inputintensity"], ["unique_filter_output"]⟩),
    ("sbs::compositing::normal", ⟨["input1"], ["unique_filter_output"]⟩),
    ("sbs::compositing::transformation", ⟨["input1"], ["unique_filter_output"]⟩),
    ("sbs::compositing::distance", ⟨["input1"], ["unique_filter_output"]⟩),
    ("sbs::compositing::grayscaleconversion",
      ⟨["input1"], ["unique_filter_output"]⟩),
    ("sbs::compositing::shuffle", ⟨["input1"], ["unique_filter_output"]⟩),
    ("sbs::compositing::emboss", ⟨["input1"], ["unique_filter_output"]⟩),
    ("sbs::compositing::passthrough", ⟨["input1"], ["unique_filter_output"]⟩),
    ("sbs::compositing::uniform", ⟨[], ["unique_filter_output"]⟩),
    ("sbs::compositing::output", ⟨["inputNodeOutput"], []⟩),
    ("sbs::compositing::input_color", ⟨[], ["unique_filter_output"]⟩),
    ("sbs::compositing::input_grayscale", ⟨[], ["unique_filter_output"]⟩),
    ("sbs::compositing::gradient",
      ⟨["input1", "gradient"], ["unique_filter_output"]⟩),
    ("sbs::compositing::pixelprocessor", ⟨["input1"], ["unique_filter_output"]⟩),
    ("sbs::compositing::fxmaps", ⟨["input1"], ["unique_filter_output"]⟩) ]

/-- A live node as observed through the host API by `_safe_connect` and
`smart_connect`: its identifier, its definition id (`_get_node_def_id`),
and its declared output/input property identifiers.  A failed property
query is modelled by an empty list (exactly what the `except` arms of the
source produce). -/
structure LiveNode where
  ident : String
  defnId : String
  outputIds : List String
  inputIds : List String

/-- `CommandHandler._safe_connect` (src/plugin/__init__.py:944-976): port
validation against the LIVE node's declared ports, followed by the host
connection call (outcome supplied by the oracle `connOk`).  Note that this
function never consults `ATOMIC_PORTS`. -/
def safe_connect (from_node to_node : LiveNode) (from_out to_in : String)
    (connOk : Bool) : Except String Unit :=
  let out_ids := from_node.outputIds.dedup
  let in_ids := (to_node.inputIds.filter (fun p => !SYSTEM_PARAMS.contains p)).dedup
  if out_ids ≠ [] ∧ ¬ out_ids.contains from_out then
    .error ("Output port '" ++ from_out ++ "' not found on node '" ++
      from_node.ident ++ "'. Available: " ++ pyListRepr (sortStr out_ids))
  else if in_ids ≠ [] ∧ ¬ in_ids.contains to_in then
    .error ("Input port '" ++ to_in ++ "' not found on node '" ++
      to_node.ident ++ "'. Available: " ++ pyListRepr (sortStr in_ids))
  else if connOk then .ok ()
  else
    .error ("Connection failed: " ++ from_node.ident ++ "." ++ from_out ++
      " -> " ++ to_node.ident ++ "." ++ to_in)

/-- The `from_output`-defaulting step of `CommandHandler.smart_connect`
(src/plugin/__init__.py:1589-1601): when no output port is given, a kind
with a static `ATOMIC_PORTS` entry takes the entry's first output, and
only kinds without an entry query the live node. -/
def smart_from_output (from_node : LiveNode) (from_output : Option String) :
    String :=
  match truthy from_output with
  | some s => s
  | none =>
      match (ATOMIC_PORTS.lookup from_node.defnId) with
      | some ps => ps.outputs.headD "unique_filter_output"
      | none => from_node.outputIds.headD "unique_filter_output"

-- ── Length-prefix protocol ──────────────────────────────────────────────────

/-- `MAX_MSG_SIZE` (src/plugin/__init__.py:95): 100 MiB frame cap. -/
def MAX_MSG_SIZE : Nat := 100 * 1024 * 1024

/-- `HEADER_SIZE` (src/plugin/__init__.py:91). -/
def HEADER_SIZE : Nat := 4

/-- `_recv_exact` (src/plugin/__init__.py:374-386): read exactly `n` bytes
from the connection's byte stream, or `none` when the peer closes first
(a zero-byte read).  Returns the bytes read and the remaining stream.
Socket timeouts are outside the model (they raise and likewise drop the
connection without processing). -/
def recv_exact (stream : List Nat) (n : Nat) :
    Option (List Nat × List Nat) :=
  if n ≤ stream.length then some (stream.take n, stream.drop n) else none

/-- Big-endian u32 decoding of the 4-byte header (`struct.unpack(">I", ...)`). -/
def u32be (b : List Nat) : Nat :=
  match b with
  | [b0, b1, b2, b3] => ((b0 * 256 + b1) * 256 + b2) * 256 + b3
  | _ => 0

/-- `_recv_framed` (src/plugin/__init__.py:389-400): read the 4-byte
big-endian length header and then exactly that many payload bytes.
`.ok none` models the `return None` paths (peer closed, zero-length
header); `.error` models the `ValueError` raised for an oversized frame. -/
def recv_framed (stream : List Nat) : Except String (Option (List Nat)) :=
  match recv_exact stream HEADER_SIZE with
  | none => .ok none
  | some (header, rest) =>
    let msg_len := u32be header
    if msg_len = 0 then .ok none
    else if MAX_MSG_SIZE < msg_len then
      .error ("Message too large: " ++ toString msg_len ++ " bytes")
    else
      match recv_exact rest msg_len with
      | none => .ok none
      | some (payload, _) => .ok (some payload)

/-- The framing portion of `SDMCPServer._handle_client`
(src/plugin/__init__.py:478-497): the payload handed to command processing,
if any.  `_handle_client` returns without processing when `_recv_framed`
returns `None`, and the `ValueError` of an oversized frame propagates to
the outer handler which logs and closes the connection — in both cases no
payload is processed. -/
def framePayload (stream : List Nat) : Option (List Nat) :=
  match recv_framed stream with
  | .ok (some p) => some p
  | _ => none

-- ── Response serialization ──────────────────────────────────────────────────

/-- A Python float as it may occur in a response: finite, or one of the
non-finite values.  Only the finite/non-finite distinction matters here;
finite payloads are rationals. -/
inductive PyFloat where
  | finite (q : ℚ)
  | nan
  | inf
  | negInf
deriving DecidableEq

/-- A Python value of the kinds `json.dumps` serializes natively
(the shapes handler results are built from). -/
inductive JVal where
  | null
  | jbool (b : Bool)
  | jint (n : Int)
  | jfloat (f : PyFloat)
  | jstr (s : String)
  | jarr (xs : List JVal)
  | jobj (fields : List (String × JVal))

/-- Decimal text of a finite float (the exact digits are immaterial to the
properties proved here). -/
def floatRepr (q : ℚ) : String := toString q

/-- CPython's float serialization under `json.dumps` defaults
(`allow_nan=True`): non-finite floats are emitted as the JSON-invalid
bare tokens `NaN` / `Infinity` / `-Infinity`. -/
def dumpFloat (f : PyFloat) : String :=
  match f with
  | .finite q => floatRepr q
  | .nan => "NaN"
  | .inf => "Infinity"
  | .negInf => "-Infinity"

mutual
/-- `json.dumps` on a natively serializable value.  The `default=` hook is
NOT consulted here: CPython only calls `default` for objects it cannot
serialize natively, and every `JVal` is native.  (String escaping is not
modelled; no property proved depends on it.) -/
def jsonDumps : JVal → String
  | .null => "null"
  | .jbool b => if b then "true" else "false"
  | .jint n => toString n
  | .jfloat f => dumpFloat f
  | .jstr s => "\"" ++ s ++ "\""
  | .jarr xs => "[" ++ jsonDumpsArr xs ++ "]"
  | .jobj fs => "\x7b" ++ jsonDumpsObj fs ++ "\x7d"

/-- Comma-joined serialization of array elements. -/
def jsonDumpsArr : List JVal → String
  | [] => ""
  | [x] => jsonDumps x
  | x :: xs => jsonDumps x ++ ", " ++ jsonDumpsArr xs

/-- Comma-joined serialization of object fields. -/
def jsonDumpsObj : List (String × JVal) → String
  | [] => ""
  | [(k, v)] => "\"" ++ k ++ "\": " ++ jsonDumps v
  | (k, v) :: fs => "\"" ++ k ++ "\": " ++ jsonDumps v ++ ", " ++ jsonDumpsObj fs
end

/-- `_json_safe` (src/plugin/__init__.py:528-536), the function passed as
`json.dumps(..., default=_json_safe)`: for a float argument it maps NaN to
`None`, `inf` to `1e308`, `-inf` to `-1e308`; anything else (including a
finite float) falls through to `str(obj)`. -/
def json_safe (v : JVal) : JVal :=
  match v with
  | .jfloat .nan => .null
  | .jfloat .inf => .jfloat (.finite ((10 : ℚ) ^ (308 : ℕ)))
  | .jfloat .negInf => .jfloat (.finite (-((10 : ℚ) ^ (308 : ℕ))))
  | .jfloat (.finite q) => .jstr (floatRepr q)
  | .null => .jstr "None"
  | .jbool b => .jstr (if b then "True" else "False")
  | .jint n => .jstr (toString n)
  | .jstr s => .jstr s
  | _ => .jstr "<object>"

/-- The serialization step of `SDMCPServer._handle_client`
(src/plugin/__init__.py:496-497): the bytes sent to the client are
`json.dumps(response, default=_json_safe)`.  Since every response value is
natively serializable, the `default` hook is never invoked and this equals
`jsonDumps response`. -/
def responseBytes (response : JVal) : String := jsonDumps response

-- ── Library resource resolver & cache ───────────────────────────────────────

/-- A library resource as observed by `_resolve_lib_url`: class name,
identifier, and its URL (`getUrl` may fail or return a falsy URL, modelled
by `none`). -/
structure LibResource where
  className : String
  rid : String
  url : Option String

/-- A loaded package: its file path (falsy → skipped) and the outcomes of
`getChildrenResources(True)` / `getChildrenResources(False)` (`none`
models the call raising). -/
structure LibPackage where
  filePath : Option String
  childrenRec : Option (List LibResource)
  childrenNonRec : Option (List LibResource)

/-- The inner resource scan of `_resolve_lib_url`: first comp-graph
resource whose lower-cased identifier contains the key and which has a
truthy URL; returns `(url, rid)`. -/
def searchResources (key : String) : List LibResource → Option (String × String)
  | [] => none
  | r :: rest =>
      if !strContains r.className "SDSBSCompGraph" then searchResources key rest
      else if strContains (strLower r.rid) key then
        match truthy r.url with
        | some u => some (u, r.rid)
        | none => searchResources key rest
      else searchResources key rest

/-- The per-package part of `_resolve_lib_url`'s search: try the recursive
listing first; when it raises or is empty, fall back to the non-recursive
listing; a nonempty recursive listing with no match `break`s without
trying the non-recursive mode. -/
def searchPackage (key : String) (pkg : LibPackage) : Option (String × String) :=
  match truthy pkg.filePath with
  | none => none
  | some _ =>
    let nonRec :=
      match pkg.childrenNonRec with
      | some cs => if cs.isEmpty then none else searchResources key cs
      | none => none
    match pkg.childrenRec with
    | some cs => if cs.isEmpty then nonRec else searchResources key cs
    | none => nonRec

/-- The full package scan (first matching package wins). -/
def searchPackages (key : String) : List LibPackage → Option (String × String)
  | [] => none
  | p :: ps =>
      match searchPackage key p with
      | some r => some r
      | none => searchPackages key ps

/-- `CommandHandler._resolve_lib_url` (src/plugin/__init__.py:811-849) with
the cache passed explicitly.  Returns the resolved URL (if any), the cache
after the call, and the number of package searches performed (0 on a cache
hit, 1 otherwise).  A successful search stores the URL under both the
lower-cased keyword and the lower-cased identifier of the matched
resource. -/
def resolve_lib_url (pkgs : List LibPackage) (cache : List (String × String))
    (keyword : String) : Option String × List (String × String) × Nat :=
  match cache.lookup (strLower keyword) with
  | some url => (some url, cache, 0)
  | none =>
      match searchPackages (strLower keyword) pkgs with
      | some (url, rid) =>
          (some url, (strLower keyword, url) :: (strLower rid, url) :: cache, 1)
      | none => (none, cache, 1)

-- ── Parameter application (`_set_node_params`) ──────────────────────────────

/-- The live node as observed by `_set_node_params`: the property→type-id
maps built from `getProperties(Input)` / `getProperties(Annot..)` (a failed
query yields an empty map), and write oracles giving the outcome of
`setInputPropertyValueFromId` / the annot-property setter (`false` models
the call raising). -/
structure NodeEnv where
  inputTypes : List (String × String)
  annotTypes : List (String × String)
  inputWriteOk : String → Bool
  annotWriteOk : String → Bool

/-- The node's property stores (input and annot categories), the state a
successful setter call mutates. -/
structure NodeStore where
  inputVals : String → Option SDValue
  annotVals : String → Option SDValue

/-- Effect of a successful `setInputPropertyValueFromId`. -/
def updInput (st : NodeStore) (pid : String) (v : SDValue) : NodeStore :=
  { st with inputVals := fun q => if q = pid then some v else st.inputVals q }

/-- Effect of a successful annot-property setter call. -/
def updAnnot (st : NodeStore) (pid : String) (v : SDValue) : NodeStore :=
  { st with annotVals := fun q => if q = pid then some v else st.annotVals q }

/-- The `set_ok` cascade of `_set_node_params` (src/plugin/__init__.py
:926-938): try the input setter when the id is an input property, then the
annot setter when the id is an annot property; report `"ok"` or
`"skipped"`. -/
def attemptWrite (env : NodeEnv) (st : NodeStore) (pid : String)
    (v : SDValue) : NodeStore × String :=
  if (env.inputTypes.lookup pid).isSome ∧ env.inputWriteOk pid then
    (updInput st pid v, "ok")
  else if (env.annotTypes.lookup pid).isSome ∧ env.annotWriteOk pid then
    (updAnnot st pid v, "ok")
  else (st, "skipped")

/-- The declared `(pval, ptype)` extraction of `_set_node_params`
(src/plugin/__init__.py:913-918): a dict with a `"value"` key is an
explicit envelope whose `"type"` field (when present) overrides inference.
A non-string `"type"` field is carried as a marker id no downstream branch
matches, reproducing the error result the source produces for it. -/
def declaredValueType (spec : PyVal) : PyVal × String :=
  match spec with
  | .dict es =>
      match es.lookup "value" with
      | some v =>
          (v, match es.lookup "type" with
              | some (.str s) => s
              | some _ => "<non-string-type>"
              | none => infer_type v)
      | none => (spec, infer_type spec)
  | _ => (spec, infer_type spec)

/-- One iteration of the parameter loop of `_set_node_params`
(src/plugin/__init__.py:907-940): `$`-prefixed ids are skipped outright;
otherwise the declared type is coerced against the authoritative property
type (`input_type_map.get(pid) or annot_type_map.get(pid) or ""`), the
value is boxed, and the write cascade runs; exceptions inside the loop
body yield an `"error: ..."` result. -/
def applyParam (env : NodeEnv) (st : NodeStore) (pid : String)
    (spec : PyVal) : NodeStore × String :=
  if strStarts pid "$" then (st, "skipped_system")
  else
    let pv := declaredValueType spec
    let sd_type_id := pyOr (env.inputTypes.lookup pid)
      (pyOr (env.annotTypes.lookup pid) "")
    let ptype := coerce_type pv.2 pv.1 sd_type_id
    match make_sd_value ptype pv.1 with
    | .error e => (st, "error: " ++ e)
    | .ok v => attemptWrite env st pid v

/-- `CommandHandler._set_node_params` (src/plugin/__init__.py:876-942):
fold `applyParam` over the parameter dict, returning the final node store
and the per-parameter result map. -/
def set_node_params (env : NodeEnv) :
    NodeStore → List (String × PyVal) → NodeStore × List (String × String)
  | st, [] => (st, [])
  | st, (pid, spec) :: rest =>
      let p := applyParam env st pid spec
      let q := set_node_params env p.1 rest
      (q.1, (pid, p.2) :: q.2)

-- ── Node creation and the batch graph builder ───────────────────────────────

/-- A creation call issued to the host API by a node-creation path. -/
inductive CreateCall where
  | outputNode
  | fromUrl (u : String)
  | fromKeyword (k : String)
  | named (d : String)
deriving DecidableEq

/-- Host-side observations for `create_node`
(src/plugin/__init__.py:1278-1302): the outcome of
`graph.getNodeDefinitions()` (`none` models the query raising) and of
`graph.newNode` (`none` models it returning `None`). -/
structure CreateNodeEnv where
  defsQuery : Option (List String)
  newNodeResult : Option String

/-- `CommandHandler.create_node`: validate the definition id against the
live definition set when the query succeeds (a failed query is swallowed
by `except Exception: pass`), then call `newNode`.  Returns the created
node id or the raised error, together with the trace of host creation
calls issued. -/
def create_node (env : CreateNodeEnv) (definition_id : String) :
    Except String String × List CreateCall :=
  let attempt : Except String String × List CreateCall :=
    match env.newNodeResult with
    | some nid => (.ok nid, [.named definition_id])
    | none =>
        (.error ("newNode('" ++ definition_id ++ "') returned None."),
         [.named definition_id])
  match env.defsQuery with
  | some known =>
      if ¬ known.contains definition_id then
        (.error ("Unknown definition '" ++ definition_id ++
          "'. Library nodes require create_instance_node with pkg:// URL."), [])
      else attempt
  | none => attempt

/-- A node spec of a batch request (`spec.get(...)` fields of
`create_batch_graph`, src/plugin/__init__.py:1730-1739). -/
structure NodeSpec where
  definition_id : Option String
  id_alias : Option String
  aliasKey : Option String   -- the spec's "alias" key ("alias" is reserved in Lean)
  resource_url : Option String
  library_keyword : Option String

/-- `spec.get("definition_id", "sbs::compositing::uniform")`. -/
def NodeSpec.defnId (s : NodeSpec) : String :=
  s.definition_id.getD "sbs::compositing::uniform"

/-- `spec.get("id_alias") or spec.get("alias") or defn_id.split("::")[-1]`. -/
def NodeSpec.origAlias (s : NodeSpec) : String :=
  pyOr s.id_alias (pyOr s.aliasKey ((pySplit s.defnId "::").getLastD s.defnId))

/-- A connection spec of a batch request. -/
structure ConnSpec where
  fromKey : Option String
  from_alias : Option String
  toKey : Option String
  to_alias : Option String
  from_output : Option String
  to_input : Option String

/-- `conn.get("from") or conn.get("from_alias")`. -/
def ConnSpec.fa (c : ConnSpec) : Option String := pyOrOpt c.fromKey c.from_alias

/-- `conn.get("to") or conn.get("to_alias")`. -/
def ConnSpec.ta (c : ConnSpec) : Option String := pyOrOpt c.toKey c.to_alias

/-- Host-side observations for one batch request: whether
`graph.getNodeDefinitions()` succeeded and what the live definition set
is; the outcome of the (single) host creation call made for the i-th node
spec (`none` models any failure in the spec's `try` body); and the outcome
of `_safe_connect` for the j-th connection spec. -/
structure BatchEnv where
  defsQueryOk : Bool
  liveDefs : List String
  createResult : Nat → Option String
  connectResult : Nat → Except String Unit

/-- `_known_defs` of `create_batch_graph` (src/plugin/__init__.py
:1721-1724): the live set, or the empty set when the query raised. -/
def BatchEnv.knownDefs (env : BatchEnv) : List String :=
  if env.defsQueryOk then env.liveDefs else []

/-- The creation-method dispatch of one batch node spec
(src/plugin/__init__.py:1741-1779): output marker, then resource URL, then
library keyword, then named kind — the last validated against
`_known_defs` only when that set is nonempty. -/
def specCreation (kd : List String) (s : NodeSpec) :
    Except String CreateCall :=
  if s.defnId = "sbs::compositing::output" then .ok .outputNode
  else
    match truthy s.resource_url with
    | some u => .ok (.fromUrl u)
    | none =>
        match truthy s.library_keyword with
        | some k => .ok (.fromKeyword k)
        | none =>
            if kd ≠ [] ∧ ¬ kd.contains s.defnId then
              .error ("Unknown definition '" ++ s.defnId ++
                "'. Use library_keyword for library nodes.")
            else .ok (.named s.defnId)

/-- Candidate alias after `k` collisions: the original for `k = 0`, then
`orig_k` (`"{}_{}".format(orig_alias, counter)`). -/
def aliasCandidate (orig : String) : Nat → String
  | 0 => orig
  | k + 1 => orig ++ "_" ++ toString (k + 1)

/-- The alias-dedup `while` loop of `create_batch_graph`
(src/plugin/__init__.py:1784-1789), with fuel: candidates are pairwise
distinct, so `keys.length + 1` iterations always reach a free one, exactly
as the source loop's first free candidate. -/
def freshAliasFrom (keys : List String) (orig : String) :
    Nat → Nat → String
  | 0, k => aliasCandidate orig k
  | fuel + 1, k =>
      let c := aliasCandidate orig k
      if c ∈ keys then freshAliasFrom keys orig fuel (k + 1) else c

/-- First alias in `orig, orig_1, orig_2, ...` not already registered. -/
def freshAlias (keys : List String) (orig : String) : String :=
  freshAliasFrom keys orig (keys.length + 1) 0

/-- Accumulated state of the node-spec loop of `create_batch_graph`:
the alias→node-id registry (insertion order), the `created` and `failed`
report lists, and the trace of host creation calls issued. -/
structure BatchState where
  aliasMap : List (String × String)
  created : List (String × String)
  failedN : List (String × String)
  calls : List CreateCall

/-- One iteration of the node-spec loop (src/plugin/__init__.py
:1729-1798): dispatch the creation method, issue the creation call, and on
success register the (collision-suffixed) alias; any failure lands in the
`failed` list and the loop continues.  (`_set_node_params` is invoked here
in the source with its result discarded; it cannot raise and does not
affect the batch response, so it is modelled separately above.) -/
def processSpec (env : BatchEnv) (i : Nat) (st : BatchState)
    (s : NodeSpec) : BatchState :=
  let orig := s.origAlias
  match specCreation env.knownDefs s with
  | .error e => { st with failedN := st.failedN ++ [(orig, e)] }
  | .ok call =>
      match env.createResult i with
      | none =>
          { st with
            failedN := st.failedN ++ [(orig, "node creation failed")],
            calls := st.calls ++ [call] }
      | some nid =>
          let a := freshAlias (st.aliasMap.map Prod.fst) orig
          { aliasMap := st.aliasMap ++ [(a, nid)],
            created := st.created ++ [(a, nid)],
            failedN := st.failedN,
            calls := st.calls ++ [call] }

/-- The whole node-spec loop. -/
def processSpecs (env : BatchEnv) : Nat → BatchState → List NodeSpec → BatchState
  | _, st, [] => st
  | i, st, s :: rest => processSpecs env (i + 1) (processSpec env i st s) rest

/-- One entry of the batch response's `connections` list: an alias-lookup
failure (an `error` entry with no `success` key), a success, or a failed
`_safe_connect`. -/
inductive ConnResult where
  | aliasErr (msg : String)
  | ok (fa ta : String)
  | failed (fa ta : String) (err : String)
deriving DecidableEq

/-- `c.get("success")` truthiness in the response counters. -/
def ConnResult.isSuccess : ConnResult → Bool
  | .ok _ _ => true
  | _ => false

/-- One iteration of the connection loop of `create_batch_graph`
(src/plugin/__init__.py:1799-1819): both endpoint aliases must be in the
registry built by the (already finished) node loop; an unresolved alias is
recorded and the loop continues; otherwise `_safe_connect` runs and its
exception, if any, is caught into a failure entry. -/
def connStep (env : BatchEnv) (j : Nat) (am : List (String × String))
    (c : ConnSpec) : ConnResult :=
  if (match c.fa with | some s => (am.lookup s).isNone | none => true) then
    .aliasErr ("from '" ++ strOf c.fa ++ "' not found")
  else if (match c.ta with | some s => (am.lookup s).isNone | none => true) then
    .aliasErr ("to '" ++ strOf c.ta ++ "' not found")
  else
    match env.connectResult j with
    | .ok _ => .ok (strOf c.fa) (strOf c.ta)
    | .error e => .failed (strOf c.fa) (strOf c.ta) e

/-- The whole connection loop, run against the final alias registry. -/
def processConns (env : BatchEnv) :
    Nat → List (String × String) → List ConnSpec → List ConnResult
  | _, _, [] => []
  | j, am, c :: rest => connStep env j am c :: processConns env (j + 1) am rest

/-- The batch response (src/plugin/__init__.py:1827-1838), plus the trace
of host creation calls issued while serving the request. -/
structure BatchResult where
  nodes_created : Nat
  nodes_failed : Nat
  connections_ok : Nat
  connections_failed : Nat
  node_map : List (String × String)
  failed_nodes : List (String × String)
  conn_results : List ConnResult
  create_calls : List CreateCall

/-- `CommandHandler.create_batch_graph` (src/plugin/__init__.py:1690-1838):
process every node spec, then every connection spec against the finished
alias registry, and assemble the per-item report. -/
def create_batch_graph (env : BatchEnv) (nodes : List NodeSpec)
    (conns : List ConnSpec) : BatchResult :=
  let st := processSpecs env 0 ⟨[], [], [], []⟩ nodes
  let cr := processConns env 0 st.aliasMap conns
  { nodes_created := st.created.length,
    nodes_failed := st.failedN.length,
    connections_ok := (cr.filter (fun c => c.isSuccess)).length,
    connections_failed := (cr.filter (fun c => !c.isSuccess)).length,
    node_map := st.aliasMap,
    failed_nodes := st.failedN,
    conn_results := cr,
    create_calls := st.calls }

-- ════════════════════════════════════════════════════════════════════════════
-- Theorems
-- ════════════════════════════════════════════════════════════════════════════

/-- Claim C2, as stated, is false: the envelope's `"type"` field is not the
final word — it is coerced against the authoritative property type, so
`{"value": 7, "type": "int"}` applied to a property whose SD type id is
`"float"` yields a FLOAT value, not an int value. -/
theorem C2_counterexample :
    infer_type (PyVal.int 7) = "float" ∧
    (applyParam ⟨[("p", "float")], [], fun _ => true, fun _ => true⟩
        ⟨fun _ => none, fun _ => none⟩ "p"
        (PyVal.dict [("value", PyVal.int 7), ("type", PyVal.str "int")])).1.inputVals "p"
      = some (SDValue.float 7) ∧
    SDValue.float 7 ≠ SDValue.int 7 := by
  refine ⟨rfl, by decide, by decide⟩

/-- Claim C2 (corrected): a bare int infers to `"float"`, never `"int"`;
the parameter-application path does use the envelope's `"type"` field as
the declared type, and that declared type is honored whenever the
authoritative property type is unknown (empty type id); but the declared
type is subject to coercion against the authoritative type, which can
produce an int value without any envelope (enum-typed property) or
override an int envelope to float (float-typed property). -/
theorem C2_bare_int_inference (n : Int) :
    infer_type (PyVal.int n) = "float" ∧
    (applyParam ⟨[("p", "")], [], fun _ => true, fun _ => true⟩
        ⟨fun _ => none, fun _ => none⟩ "p"
        (PyVal.dict [("value", PyVal.int n), ("type", PyVal.str "int")])).1.inputVals "p"
      = some (SDValue.int n) ∧
    (applyParam ⟨[("p", "sbs::compositing::blendingmode")], [], fun _ => true, fun _ => true⟩
        ⟨fun _ => none, fun _ => none⟩ "p" (PyVal.int n)).1.inputVals "p"
      = some (SDValue.int n) ∧
    (applyParam ⟨[("p", "float")], [], fun _ => true, fun _ => true⟩
        ⟨fun _ => none, fun _ => none⟩ "p"
        (PyVal.dict [("value", PyVal.int n), ("type", PyVal.str "int")])).1.inputVals "p"
      = some (SDValue.float n) := by
  refine ⟨rfl, rfl, rfl, rfl⟩

/-- Witness for C2_bare_int_inference at `n = 7`. -/
theorem C2_bare_int_inference_witness :
    infer_type (PyVal.int 7) = "float" ∧
    (applyParam ⟨[("p", "")], [], fun _ => true, fun _ => true⟩
        ⟨fun _ => none, fun _ => none⟩ "p"
        (PyVal.dict [("value", PyVal.int 7), ("type", PyVal.str "int")])).1.inputVals "p"
      = some (SDValue.int 7) ∧
    (applyParam ⟨[("p", "sbs::compositing::blendingmode")], [], fun _ => true, fun _ => true⟩
        ⟨fun _ => none, fun _ => none⟩ "p" (PyVal.int 7)).1.inputVals "p"
      = some (SDValue.int 7) ∧
    (applyParam ⟨[("p", "float")], [], fun _ => true, fun _ => true⟩
        ⟨fun _ => none, fun _ => none⟩ "p"
        (PyVal.dict [("value", PyVal.int 7), ("type", PyVal.str "int")])).1.inputVals "p"
      = some (SDValue.float 7) :=
  C2_bare_int_inference 7

/-- Claim C4, as stated, is false: the fallback of `_coerce_type` has no
`float3 → int3` arm, so an inferred `float3` against the int-keyword type
id `"myint3"` stays `float3` instead of becoming `int3` (the type id does
contain `"int"`, does not contain `"float"` or `"::"`, and is none of the
recognized exact primitives). -/
theorem C4_counterexample :
    strContains (strLower "myint3") "int" = true ∧
    strContains (strLower "myint3") "float" = false ∧
    strContains (strLower "myint3") "::" = false ∧
    strLower "myint3" ∉ ["int", "float", "bool", "string", "float2", "float3",
      "float4", "int2", "int3", "int4", "colorrgba", "colorrgb"] ∧
    coerce_type "float3" (PyVal.list [PyVal.float 1, PyVal.float 2, PyVal.float 3])
      "myint3" = "float3" ∧
    ("float3" : String) ≠ "int3" := by
  refine ⟨by decide, by decide, by decide, by decide, by decide, by decide⟩

/-- Claim C4 (corrected): for a nonempty authoritative type id that is not
a recognized exact primitive, contains no `"::"`, and whose lower-casing
contains `"int"` but not `"float"`, coercion maps `float → int`,
`float2 → int2` and `float4 → int4` (the vector cases only for list-shaped
values) — but `float3` is NOT coerced: it stays `float3`. -/
theorem C4_int_keyword_fallback (tid : String) (v : PyVal)
    (hne : tid ≠ "")
    (hexact : strLower tid ∉ ["int", "float", "bool", "string", "float2",
      "float3", "float4", "int2", "int3", "int4", "colorrgba", "colorrgb"])
    (hsbs : strStarts (strLower tid) "sbs::" = false)
    (hcolon : strContains (strLower tid) "::" = false)
    (hint : strContains (strLower tid) "int" = true)
    (hfloat : strContains (strLower tid) "float" = false) :
    coerce_type "float" v tid = "int" ∧
    (v.isListLike = true →
      coerce_type "float2" v tid = "int2" ∧ coerce_type "float4" v tid = "int4") ∧
    coerce_type "float3" v tid = "float3" := by
  simp only [List.mem_cons, List.mem_singleton, not_or] at hexact
  obtain ⟨e1, e2, e3, e4, e5, e6, e7, e8, e9, e10, e11, e12, -⟩ := hexact
  refine ⟨?_, fun hv => ⟨?_, ?_⟩, ?_⟩
  · simp [coerce_type, hne, e1, e2, e3, e4, e5, e6, e7, e8, e9, e10, e11, e12,
      hsbs, hcolon, hint, hfloat]
  · simp [coerce_type, hne, e1, e2, e3, e4, e5, e6, e7, e8, e9, e10, e11, e12,
      hsbs, hcolon, hint, hfloat, hv]
  · simp [coerce_type, hne, e1, e2, e3, e4, e5, e6, e7, e8, e9, e10, e11, e12,
      hsbs, hcolon, hint, hfloat, hv]
  · simp [coerce_type, hne, e1, e2, e3, e4, e5, e6, e7, e8, e9, e10, e11, e12,
      hsbs, hcolon, hint, hfloat]

/-- Witness for C4_int_keyword_fallback at `tid = "myint3"`,
`v = [1.0, 2.0]`. -/
theorem C4_int_keyword_fallback_witness :
    coerce_type "float" (PyVal.list [PyVal.float 1, PyVal.float 2]) "myint3" = "int" ∧
    ((PyVal.list [PyVal.float 1, PyVal.float 2]).isListLike = true →
      coerce_type "float2" (PyVal.list [PyVal.float 1, PyVal.float 2]) "myint3" = "int2" ∧
      coerce_type "float4" (PyVal.list [PyVal.float 1, PyVal.float 2]) "myint3" = "int4") ∧
    coerce_type "float3" (PyVal.list [PyVal.float 1, PyVal.float 2]) "myint3" = "float3" :=
  C4_int_keyword_fallback "myint3" (PyVal.list [PyVal.float 1, PyVal.float 2])
    (by decide) (by decide) (by decide) (by decide) (by decide) (by decide)

/-- Claim C5 names a real bug in the code: `_handle_client` serializes with
`json.dumps(response, default=_json_safe)`, but CPython only calls the
`default` hook for objects it cannot serialize natively — floats are
native, so a non-finite float is emitted as the JSON-invalid bare token
`Infinity`/`NaN` and `_json_safe`'s float branches (which do implement the
sentinel mapping the claim describes) are dead code. -/
theorem C5_nonfinite_float_serialization :
    strContains (responseBytes (JVal.jobj [("status", JVal.jstr "success"),
      ("result", JVal.jobj [("value", JVal.jfloat PyFloat.inf)])])) "Infinity" = true ∧
    responseBytes (JVal.jobj [("status", JVal.jstr "success"),
      ("result", JVal.jobj [("value", JVal.jfloat PyFloat.nan)])])
      = "\x7b\"status\": \"success\", \"result\": \x7b\"value\": NaN\x7d\x7d" ∧
    json_safe (JVal.jfloat PyFloat.inf) = JVal.jfloat (.finite ((10 : ℚ) ^ (308 : ℕ))) ∧
    json_safe (JVal.jfloat PyFloat.negInf) = JVal.jfloat (.finite (-((10 : ℚ) ^ (308 : ℕ)))) ∧
    json_safe (JVal.jfloat PyFloat.nan) = JVal.null := by
  refine ⟨by decide, by decide, rfl, rfl, rfl⟩

/-- The framing function, characterized in closed form. -/
theorem framePayload_eq (stream : List Nat) :
    framePayload stream =
      if 4 ≤ stream.length then
        if u32be (stream.take 4) = 0 then none
        else if MAX_MSG_SIZE < u32be (stream.take 4) then none
        else if u32be (stream.take 4) ≤ stream.length - 4 then
          some ((stream.drop 4).take (u32be (stream.take 4)))
        else none
      else none := by
  by_cases h4 : 4 ≤ stream.length <;>
    simp [framePayload, recv_framed, recv_exact, HEADER_SIZE, h4]
  by_cases h0 : u32be (stream.take 4) = 0 <;> simp [h0]
  by_cases hM : MAX_MSG_SIZE < u32be (stream.take 4) <;> simp [hM]
  by_cases hl : u32be (stream.take 4) ≤ stream.length - 4 <;> simp [hl]

/-- Claim C6 (confirmed): a payload is handed to command processing only
when the bytes received match the 4-byte big-endian length prefix exactly
(the payload is precisely the declared number of bytes following the
header); a zero-length prefix yields no processing; a prefix over
`MAX_MSG_SIZE` (100 MiB) raises the `Message too large` protocol error and
yields no processing; and a peer close mid-payload (stream shorter than
header + declared length) yields no processing.  A partially received
message is never parsed. -/
theorem C6_frame_integrity (stream : List Nat) :
    (∀ p, framePayload stream = some p →
        p.length = u32be (stream.take 4) ∧
        p = (stream.drop 4).take (u32be (stream.take 4)) ∧
        4 + u32be (stream.take 4) ≤ stream.length) ∧
    (4 ≤ stream.length → u32be (stream.take 4) = 0 → framePayload stream = none) ∧
    (4 ≤ stream.length → MAX_MSG_SIZE < u32be (stream.take 4) →
        framePayload stream = none ∧
        recv_framed stream = .error ("Message too large: " ++
          toString (u32be (stream.take 4)) ++ " bytes")) ∧
    (stream.length < 4 + u32be (stream.take 4) → framePayload stream = none) := by
  have key := framePayload_eq stream
  refine ⟨?_, ?_, ?_, ?_⟩
  · intro p hp
    rw [key] at hp
    by_cases h4 : 4 ≤ stream.length
    · simp only [h4, if_true] at hp
      by_cases h0 : u32be (stream.take 4) = 0
      · simp [h0] at hp
      by_cases hM : MAX_MSG_SIZE < u32be (stream.take 4)
      · simp [h0, hM] at hp
      by_cases hl : u32be (stream.take 4) ≤ stream.length - 4
      · simp only [h0, hM, hl, if_true, if_false, if_neg h0, if_neg hM] at hp
        have hp' : p = (stream.drop 4).take (u32be (stream.take 4)) := by
          simpa using hp.symm
        subst hp'
        refine ⟨?_, rfl, ?_⟩
        · rw [List.length_take, List.length_drop]
          omega
        · omega
      · simp [h0, hM, hl] at hp
    · simp [h4] at hp
  · intro h4 h0
    rw [key]; simp [h4, h0]
  · intro h4 hM
    have hMv : MAX_MSG_SIZE = 104857600 := rfl
    have h0 : ¬ u32be (stream.take 4) = 0 := by omega
    constructor
    · rw [key]; simp [h4, hM]
    · simp [recv_framed, recv_exact, HEADER_SIZE, h4, h0, hM]
  · intro hshort
    rw [key]
    by_cases h4 : 4 ≤ stream.length
    · have hl : ¬ u32be (stream.take 4) ≤ stream.length - 4 := by omega
      by_cases h0 : u32be (stream.take 4) = 0
      · omega
      · simp [h4, h0, hl]
    · simp [h4]

/-- Witness for C6_frame_integrity: the 6-byte stream
`00 00 00 02 61 62` declares a 2-byte payload and yields exactly
`[97, 98]`. -/
theorem C6_frame_integrity_witness :
    ([97, 98] : List Nat).length = u32be (([0, 0, 0, 2, 97, 98] : List Nat).take 4) ∧
    ([97, 98] : List Nat) =
      (([0, 0, 0, 2, 97, 98] : List Nat).drop 4).take
        (u32be (([0, 0, 0, 2, 97, 98] : List Nat).take 4)) ∧
    4 + u32be (([0, 0, 0, 2, 97, 98] : List Nat).take 4) ≤
      ([0, 0, 0, 2, 97, 98] : List Nat).length :=
  (C6_frame_integrity [0, 0, 0, 2, 97, 98]).1 [97, 98] (by decide)

/-- Claim C3, as stated, is false: `_safe_connect` never consults the
static `ATOMIC_PORTS` table.  Here the source node's kind
(`sbs::compositing::output`) has a static entry whose output set is empty,
so `"weird_port"` is not in the static output set — yet the connection is
accepted, because validation only checks the LIVE node's declared outputs
(which here report `"weird_port"`). -/
theorem C3_counterexample :
    ATOMIC_PORTS.lookup "sbs::compositing::output" = some ⟨["inputNodeOutput"], []⟩ ∧
    "weird_port" ∉ (PortSpec.mk ["inputNodeOutput"] []).outputs ∧
    safe_connect ⟨"n1", "sbs::compositing::output", ["weird_port"], []⟩
      ⟨"n2", "sbs::compositing::blend", [], ["source", "destination", "opacity"]⟩
      "weird_port" "source" true = .ok () := by
  refine ⟨by decide, by decide, by decide⟩

/-- Claim C3 (corrected): connection validation is purely live-node-based —
whenever the live source node reports a nonempty output set, any
`from_port` outside it is rejected with a message enumerating the (sorted)
valid set; the static `ATOMIC_PORTS` table plays no role in validation and
is consulted only by `smart_connect` to DEFAULT an unspecified port name
(kinds with a static entry take the entry's first output; only kinds
without one query the live node). -/
theorem C3_live_port_validation (fn tn : LiveNode) (fo ti : String)
    (connOk : Bool)
    (h1 : fn.outputIds.dedup ≠ [])
    (h2 : ¬ fn.outputIds.dedup.contains fo) :
    safe_connect fn tn fo ti connOk =
      .error ("Output port '" ++ fo ++ "' not found on node '" ++ fn.ident ++
        "'. Available: " ++ pyListRepr (sortStr fn.outputIds.dedup)) ∧
    (∀ (node : LiveNode) (ps : PortSpec), ATOMIC_PORTS.lookup node.defnId = some ps →
        smart_from_output node none = ps.outputs.headD "unique_filter_output") ∧
    (∀ node : LiveNode, ATOMIC_PORTS.lookup node.defnId = none →
        smart_from_output node none = node.outputIds.headD "unique_filter_output") := by
  refine ⟨?_, ?_, ?_⟩
  · simp only [safe_connect]
    rw [if_pos ⟨h1, h2⟩]
  · intro node ps hps
    simp [smart_from_output, truthy, hps]
  · intro node hps
    simp [smart_from_output, truthy, hps]

/-- Witness for C3_live_port_validation: a live node with outputs
`["b", "a"]` rejects port `"c"` and the message lists `['a', 'b']`. -/
theorem C3_live_port_validation_witness :
    safe_connect ⟨"n1", "k", ["b", "a"], []⟩ ⟨"n2", "k", [], []⟩ "c" "input1" true =
      .error ("Output port '" ++ "c" ++ "' not found on node '" ++ "n1" ++
        "'. Available: " ++ pyListRepr (sortStr (["b", "a"] : List String).dedup)) ∧
    (∀ (node : LiveNode) (ps : PortSpec), ATOMIC_PORTS.lookup node.defnId = some ps →
        smart_from_output node none = ps.outputs.headD "unique_filter_output") ∧
    (∀ node : LiveNode, ATOMIC_PORTS.lookup node.defnId = none →
        smart_from_output node none = node.outputIds.headD "unique_filter_output") :=
  C3_live_port_validation ⟨"n1", "k", ["b", "a"], []⟩ ⟨"n2", "k", [], []⟩
    "c" "input1" true (by decide) (by decide)

/-- Claim C9 (confirmed): once a keyword resolution has succeeded, a second
resolution of the same keyword returns the identical URL from the cache
and performs zero package searches; and a fresh successful resolution
caches the URL under both the lower-cased keyword and the lower-cased
identifier of the matched resource. -/
theorem C9_resolver_cache_idempotent (pkgs : List LibPackage)
    (cache : List (String × String)) (kw url : String)
    (c2 : List (String × String)) (n : Nat)
    (h : resolve_lib_url pkgs cache kw = (some url, c2, n)) :
    resolve_lib_url pkgs c2 kw = (some url, c2, 0) ∧
    c2.lookup (strLower kw) = some url ∧
    (∀ u rid, cache.lookup (strLower kw) = none →
        searchPackages (strLower kw) pkgs = some (u, rid) →
        u = url ∧ c2.lookup (strLower rid) = some u) := by
  unfold resolve_lib_url at h ⊢
  cases hc : cache.lookup (strLower kw) with
  | some u0 =>
      rw [hc] at h
      have h1 : u0 = url ∧ cache = c2 ∧ 0 = n := by simpa [Prod.ext_iff] using h
      obtain ⟨rfl, rfl, -⟩ := h1
      refine ⟨by simp [hc], hc, ?_⟩
      intro u rid hnone _
      simp at hnone
  | none =>
      rw [hc] at h
      cases hs : searchPackages (strLower kw) pkgs with
      | none =>
          rw [hs] at h
          simp [Prod.ext_iff] at h
      | some ur =>
          obtain ⟨u0, rid0⟩ := ur
          rw [hs] at h
          have h1 : u0 = url ∧
              (strLower kw, u0) :: (strLower rid0, u0) :: cache = c2 ∧ 1 = n := by
            simpa [Prod.ext_iff] using h
          obtain ⟨rfl, rfl, -⟩ := h1
          have hlk : List.lookup (strLower kw)
              ((strLower kw, u0) :: (strLower rid0, u0) :: cache) = some u0 := by
            simp [List.lookup]
          refine ⟨by simp [hlk], hlk, ?_⟩
          intro u rid _ hsearch
          obtain ⟨rfl, rfl⟩ : u0 = u ∧ rid0 = rid := by
            simpa [Prod.ext_iff] using hsearch
          refine ⟨rfl, ?_⟩
          simp only [List.lookup]
          split
          · rfl
          · simp

/-- Witness for C9_resolver_cache_idempotent: one package exposing the
comp graph `Blur_HQ` at `pkg://blur_hq`; resolving `"Blur"` once caches
both keys, and the theorem yields the cache-hit re-resolution. -/
theorem C9_resolver_cache_idempotent_witness :
    resolve_lib_url
        [⟨some "/lib.sbs", some [⟨"SDSBSCompGraph", "Blur_HQ", some "pkg://blur_hq"⟩], none⟩]
        [("blur", "pkg://blur_hq"), ("blur_hq", "pkg://blur_hq")] "Blur"
      = (some "pkg://blur_hq",
          [("blur", "pkg://blur_hq"), ("blur_hq", "pkg://blur_hq")], 0) ∧
    List.lookup (strLower "Blur")
        [("blur", "pkg://blur_hq"), ("blur_hq", "pkg://blur_hq")]
      = some "pkg://blur_hq" ∧
    (∀ u rid, List.lookup (strLower "Blur") ([] : List (String × String)) = none →
        searchPackages (strLower "Blur")
          [⟨some "/lib.sbs", some [⟨"SDSBSCompGraph", "Blur_HQ", some "pkg://blur_hq"⟩], none⟩]
          = some (u, rid) →
        u = "pkg://blur_hq" ∧
        List.lookup (strLower rid)
            [("blur", "pkg://blur_hq"), ("blur_hq", "pkg://blur_hq")] = some u) :=
  C9_resolver_cache_idempotent
    [⟨some "/lib.sbs", some [⟨"SDSBSCompGraph", "Blur_HQ", some "pkg://blur_hq"⟩], none⟩]
    [] "Blur" "pkg://blur_hq"
    [("blur", "pkg://blur_hq"), ("blur_hq", "pkg://blur_hq")] 1 (by decide)

/-- A `$`-prefixed parameter id short-circuits to `skipped_system` with no
state change. -/
theorem applyParam_dollar (env : NodeEnv) (st : NodeStore) (pid : String)
    (spec : PyVal) (h : strStarts pid "$" = true) :
    applyParam env st pid spec = (st, "skipped_system") := by
  simp [applyParam, h]

/-- The write cascade touches no property other than its own `pid`. -/
theorem attemptWrite_frame (env : NodeEnv) (st : NodeStore) (pid : String)
    (v : SDValue) (q : String) (hq : q ≠ pid) :
    (attemptWrite env st pid v).1.inputVals q = st.inputVals q ∧
    (attemptWrite env st pid v).1.annotVals q = st.annotVals q := by
  unfold attemptWrite updInput updAnnot
  split
  · simp [hq]
  · split
    · simp [hq]
    · exact ⟨rfl, rfl⟩

/-- One parameter-loop iteration touches no property other than its own. -/
theorem applyParam_frame (env : NodeEnv) (st : NodeStore) (pid : String)
    (spec : PyVal) (q : String) (hq : q ≠ pid) :
    (applyParam env st pid spec).1.inputVals q = st.inputVals q ∧
    (applyParam env st pid spec).1.annotVals q = st.annotVals q := by
  unfold applyParam
  split
  · exact ⟨rfl, rfl⟩
  · dsimp only
    split
    · exact ⟨rfl, rfl⟩
    · exact attemptWrite_frame env st pid _ q hq

/-- Result-map entry of a `$`-prefixed parameter. -/
theorem snp_lookup (env : NodeEnv) :
    ∀ (params : List (String × PyVal)) (st : NodeStore) (pid : String) (spec : PyVal),
      (pid, spec) ∈ params → strStarts pid "$" = true →
      (params.map Prod.fst).Nodup →
      (set_node_params env st params).2.lookup pid = some "skipped_system"
  | [], _, _, _, hmem, _, _ => absurd hmem (List.not_mem_nil _)
  | (k, sp) :: rest, st, pid, spec, hmem, hd, hnd => by
      rw [List.map_cons] at hnd
      obtain ⟨hknr, hndr⟩ := List.nodup_cons.mp hnd
      rcases List.mem_cons.mp hmem with heq | hrest
      · obtain ⟨rfl, rfl⟩ := Prod.mk.inj heq
        simp [set_node_params, List.lookup, applyParam_dollar env st pid spec hd]
      · have hkey : pid ∈ rest.map Prod.fst :=
          List.mem_map.mpr ⟨(pid, spec), hrest, rfl⟩
        have hk : pid ≠ k := fun hpk => hknr (hpk ▸ hkey)
        have hbe : (pid == k) = false := beq_eq_false_iff_ne.mpr hk
        simp only [set_node_params, List.lookup, hbe]
        exact snp_lookup env rest _ pid spec hrest hd hndr

/-- Properties whose only entries (if any) are `$`-prefixed are untouched
by the whole parameter loop. -/
theorem snp_frame (env : NodeEnv) :
    ∀ (params : List (String × PyVal)) (st : NodeStore) (q : String),
      (∀ spec, (q, spec) ∈ params → strStarts q "$" = true) →
      (set_node_params env st params).1.inputVals q = st.inputVals q ∧
      (set_node_params env st params).1.annotVals q = st.annotVals q
  | [], _, _, _ => ⟨rfl, rfl⟩
  | (k, sp) :: rest, st, q, h => by
      by_cases hk : k = q
      · subst hk
        have hd : strStarts k "$" = true := h sp (List.mem_cons_self _ _)
        have hst : (applyParam env st k sp).1 = st := by
          rw [applyParam_dollar env st k sp hd]
        simp only [set_node_params]
        rw [hst]
        exact snp_frame env rest st k (fun s hs => h s (List.mem_cons_of_mem _ hs))
      · have hfr := applyParam_frame env st k sp q (fun hh => hk hh.symm)
        have ih := snp_frame env rest (applyParam env st k sp).1 q
          (fun s hs => h s (List.mem_cons_of_mem _ hs))
        simp only [set_node_params]
        exact ⟨ih.1.trans hfr.1, ih.2.trans hfr.2⟩

/-- Claim C10 (confirmed): in `_set_node_params`, every parameter whose id
begins with `$` is skipped entirely — its per-parameter result is
`"skipped_system"` and no property write happens for it — and a node
property is only modified by an entry of its own id: any property id whose
entries (if any) are all `$`-prefixed keeps its initial value in both the
input and annot stores. -/
theorem C10_system_params_skipped (env : NodeEnv) (st : NodeStore)
    (params : List (String × PyVal)) :
    (∀ pid spec, (pid, spec) ∈ params → strStarts pid "$" = true →
        (params.map Prod.fst).Nodup →
        (set_node_params env st params).2.lookup pid = some "skipped_system") ∧
    (∀ q, (∀ spec, (q, spec) ∈ params → strStarts q "$" = true) →
        (set_node_params env st params).1.inputVals q = st.inputVals q ∧
        (set_node_params env st params).1.annotVals q = st.annotVals q) :=
  ⟨fun pid spec hmem hd hnd => snp_lookup env params st pid spec hmem hd hnd,
   fun q h => snp_frame env params st q h⟩

/-- Witness for C10_system_params_skipped: params
`[("$outputsize", 11), ("w", 1.0)]` on a node with one input `"w"`. -/
theorem C10_system_params_skipped_witness :
    (set_node_params ⟨[("w", "float")], [], fun _ => true, fun _ => true⟩
        ⟨fun _ => none, fun _ => none⟩
        [("$outputsize", PyVal.int 11), ("w", PyVal.float 1)]).2.lookup "$outputsize"
      = some "skipped_system" ∧
    (set_node_params ⟨[("w", "float")], [], fun _ => true, fun _ => true⟩
        ⟨fun _ => none, fun _ => none⟩
        [("$outputsize", PyVal.int 11), ("w", PyVal.float 1)]).1.inputVals "$outputsize"
      = (⟨fun _ => none, fun _ => none⟩ : NodeStore).inputVals "$outputsize" ∧
    (set_node_params ⟨[("w", "float")], [], fun _ => true, fun _ => true⟩
        ⟨fun _ => none, fun _ => none⟩
        [("$outputsize", PyVal.int 11), ("w", PyVal.float 1)]).1.annotVals "$outputsize"
      = (⟨fun _ => none, fun _ => none⟩ : NodeStore).annotVals "$outputsize" :=
  ⟨(C10_system_params_skipped ⟨[("w", "float")], [], fun _ => true, fun _ => true⟩
      ⟨fun _ => none, fun _ => none⟩
      [("$outputsize", PyVal.int 11), ("w", PyVal.float 1)]).1
    "$outputsize" (PyVal.int 11) (List.mem_cons_self _ _) (by decide) (by decide),
   (C10_system_params_skipped ⟨[("w", "float")], [], fun _ => true, fun _ => true⟩
      ⟨fun _ => none, fun _ => none⟩
      [("$outputsize", PyVal.int 11), ("w", PyVal.float 1)]).2
    "$outputsize" (fun _ _ => by decide)⟩

/-- Appending the collision suffix changes the alias. -/
theorem suffix1_ne (a : String) : a ++ "_1" ≠ a := by
  intro h
  have h2 := congrArg String.length h
  rw [String.length_append] at h2
  exact absurd h2 (by simp; decide)

/-- The first collision candidate is `orig ++ "_1"`. -/
theorem aliasCandidate_one (a : String) : aliasCandidate a 1 = a ++ "_1" := by
  show a ++ "_" ++ toString 1 = a ++ "_1"
  rw [String.append_assoc]; rfl

/-- Dedup against a single registered alias yields the `_1` suffix. -/
theorem freshAlias_singleton (a : String) : freshAlias [a] a = a ++ "_1" := by
  have hne : ¬ (a ++ "_" ++ toString 1 = a) := by
    rw [show a ++ "_" ++ toString 1 = a ++ "_1" from aliasCandidate_one a]
    exact suffix1_ne a
  simp [freshAlias, freshAliasFrom, aliasCandidate, hne]
  exact aliasCandidate_one a

/-- Claim C7 (confirmed): a batch with two node specs carrying the same
explicit alias, both of whose creations succeed, creates and registers
both nodes — the first under the original alias, the second under the
numerically suffixed alias — so the returned alias→node-id map has two
distinct entries, and the collision causes no node failure. -/
theorem C7_alias_collision (env : BatchEnv) (a n1 n2 : String)
    (ha : a ≠ "")
    (h0 : env.createResult 0 = some n1)
    (h1 : env.createResult 1 = some n2) :
    (create_batch_graph env
        [⟨some "sbs::compositing::output", some a, none, none, none⟩,
         ⟨some "sbs::compositing::output", some a, none, none, none⟩] []).node_map
      = [(a, n1), (a ++ "_1", n2)] ∧
    a ++ "_1" ≠ a ∧
    (create_batch_graph env
        [⟨some "sbs::compositing::output", some a, none, none, none⟩,
         ⟨some "sbs::compositing::output", some a, none, none, none⟩] []).nodes_created = 2 ∧
    (create_batch_graph env
        [⟨some "sbs::compositing::output", some a, none, none, none⟩,
         ⟨some "sbs::compositing::output", some a, none, none, none⟩] []).nodes_failed = 0 := by
  have horig : (⟨some "sbs::compositing::output", some a, none, none, none⟩
      : NodeSpec).origAlias = a := by
    simp [NodeSpec.origAlias, pyOr, ha]
  have hcr : specCreation env.knownDefs
      (⟨some "sbs::compositing::output", some a, none, none, none⟩ : NodeSpec)
      = .ok .outputNode := by
    simp [specCreation, NodeSpec.defnId]
  have hstep1 : processSpec env 0 ⟨[], [], [], []⟩
      ⟨some "sbs::compositing::output", some a, none, none, none⟩ =
      ⟨[(a, n1)], [(a, n1)], [], [.outputNode]⟩ := by
    simp [processSpec, horig, hcr, h0, freshAlias, freshAliasFrom, aliasCandidate]
  have hstep2 : processSpec env 1 ⟨[(a, n1)], [(a, n1)], [], [.outputNode]⟩
      ⟨some "sbs::compositing::output", some a, none, none, none⟩ =
      ⟨[(a, n1), (a ++ "_1", n2)], [(a, n1), (a ++ "_1", n2)], [],
        [.outputNode, .outputNode]⟩ := by
    simp only [processSpec, horig, hcr, h1]
    rw [show List.map Prod.fst [(a, n1)] = [a] from rfl, freshAlias_singleton a]
    rfl
  refine ⟨?_, suffix1_ne a, ?_, ?_⟩ <;>
    simp [create_batch_graph, processSpecs, hstep1, hstep2]

/-- Witness for C7_alias_collision at alias `"blend"`. -/
theorem C7_alias_collision_witness :
    (create_batch_graph
        ⟨true, [], fun i => some ("node_" ++ toString i), fun _ => .ok ()⟩
        [⟨some "sbs::compositing::output", some "blend", none, none, none⟩,
         ⟨some "sbs::compositing::output", some "blend", none, none, none⟩] []).node_map
      = [("blend", "node_0"), ("blend" ++ "_1", "node_1")] ∧
    "blend" ++ "_1" ≠ "blend" ∧
    (create_batch_graph
        ⟨true, [], fun i => some ("node_" ++ toString i), fun _ => .ok ()⟩
        [⟨some "sbs::compositing::output", some "blend", none, none, none⟩,
         ⟨some "sbs::compositing::output", some "blend", none, none, none⟩] []).nodes_created = 2 ∧
    (create_batch_graph
        ⟨true, [], fun i => some ("node_" ++ toString i), fun _ => .ok ()⟩
        [⟨some "sbs::compositing::output", some "blend", none, none, none⟩,
         ⟨some "sbs::compositing::output", some "blend", none, none, none⟩] []).nodes_failed = 0 :=
  C7_alias_collision
    ⟨true, [], fun i => some ("node_" ++ toString i), fun _ => .ok ()⟩
    "blend" "node_0" "node_1" (by decide) rfl rfl

/-- Whether an (optional) endpoint alias is registered in the alias map. -/
def aliasResolved (am : List (String × String)) (o : Option String) : Bool :=
  match o with
  | some s => (am.lookup s).isSome
  | none => false

/-- The connection loop emits exactly one result per connection spec. -/
theorem processConns_length (env : BatchEnv) :
    ∀ (l : List ConnSpec) (j : Nat) (am : List (String × String)),
      (processConns env j am l).length = l.length
  | [], _, _ => rfl
  | _ :: rest, j, am => by
      simp [processConns, processConns_length env rest (j + 1) am]

/-- The k-th connection result is the step function applied to the k-th
spec (with the matching oracle index). -/
theorem processConns_get (env : BatchEnv) :
    ∀ (l : List ConnSpec) (j k : Nat) (am : List (String × String)) (c : ConnSpec),
      l.get? k = some c →
      (processConns env j am l).get? k = some (connStep env (j + k) am c)
  | [], _, k, _, _, h => by simp at h
  | d :: rest, j, 0, am, c, h => by
      obtain rfl : d = c := by simpa using h
      simp [processConns]
  | d :: rest, j, k + 1, am, c, h => by
      have := processConns_get env rest (j + 1) k am c (by simpa using h)
      simpa [processConns, Nat.add_assoc, Nat.add_comm 1 k] using this

/-- An unresolved from-alias yields the per-connection error entry. -/
theorem connStep_unresolved_from (env : BatchEnv) (j : Nat)
    (am : List (String × String)) (c : ConnSpec)
    (h : aliasResolved am c.fa = false) :
    connStep env j am c = .aliasErr ("from '" ++ strOf c.fa ++ "' not found") := by
  unfold connStep
  cases hfa : c.fa with
  | none => rfl
  | some s =>
      rw [hfa] at h
      simp only [aliasResolved] at h
      simp [hfa, Option.isNone_iff_eq_none, Option.not_isSome_iff_eq_none] at h ⊢
      intro x hx
      exact absurd rfl (h s x hx)

/-- The connection-loop step of `CommandHandler.apply_recipe`
(src/plugin/__init__.py:2073-2087): same structure as the batch loop, but
with a single combined alias check whose error entry is the fixed message
`alias not found`. -/
def recipeConnStep (env : BatchEnv) (j : Nat) (am : List (String × String))
    (c : ConnSpec) : ConnResult :=
  if (match c.fa with | some s => (am.lookup s).isNone | none => true) ||
     (match c.ta with | some s => (am.lookup s).isNone | none => true) then
    .aliasErr "alias not found"
  else
    match env.connectResult j with
    | .ok _ => .ok (strOf c.fa) (strOf c.ta)
    | .error e => .failed (strOf c.fa) (strOf c.ta) e

/-- The whole connection loop of `apply_recipe`, run against the alias
registry built by its (already finished) node loop. -/
def processRecipeConns (env : BatchEnv) :
    Nat → List (String × String) → List ConnSpec → List ConnResult
  | _, _, [] => []
  | j, am, c :: rest =>
      recipeConnStep env j am c :: processRecipeConns env (j + 1) am rest

/-- A resolved from-alias with an unresolved to-alias yields the
per-connection `to ... not found` entry. -/
theorem connStep_unresolved_to (env : BatchEnv) (j : Nat)
    (am : List (String × String)) (c : ConnSpec)
    (hf : aliasResolved am c.fa = true)
    (ht : aliasResolved am c.ta = false) :
    connStep env j am c = .aliasErr ("to '" ++ strOf c.ta ++ "' not found") := by
  unfold connStep
  cases hfa : c.fa with
  | none => rw [hfa] at hf; simp [aliasResolved] at hf
  | some s =>
      rw [hfa] at hf
      simp only [aliasResolved] at hf
      obtain ⟨v, hv⟩ := Option.isSome_iff_exists.mp hf
      rw [if_neg (by simp [hv])]
      cases hta : c.ta with
      | none => simp
      | some t =>
          rw [hta] at ht
          simp only [aliasResolved] at ht
          have hnone : am.lookup t = none :=
            Option.not_isSome_iff_eq_none.mp (by simp [ht])
          rw [if_pos (by simp [hnone])]

/-- An unresolved endpoint alias (either side) yields the `apply_recipe`
loop's `alias not found` entry. -/
theorem recipeConnStep_unresolved (env : BatchEnv) (j : Nat)
    (am : List (String × String)) (c : ConnSpec)
    (h : aliasResolved am c.fa = false ∨ aliasResolved am c.ta = false) :
    recipeConnStep env j am c = .aliasErr "alias not found" := by
  unfold recipeConnStep
  rcases h with h | h
  · cases hfa : c.fa with
    | none => rw [if_pos (by simp)]
    | some s =>
        rw [hfa] at h
        simp only [aliasResolved] at h
        have hnone : am.lookup s = none :=
          Option.not_isSome_iff_eq_none.mp (by simp [h])
        rw [if_pos (by simp [hnone])]
  · cases hta : c.ta with
    | none => rw [if_pos (by simp)]
    | some t =>
        rw [hta] at h
        simp only [aliasResolved] at h
        have hnone : am.lookup t = none :=
          Option.not_isSome_iff_eq_none.mp (by simp [h])
        rw [if_pos (by simp [hnone])]

/-- The `apply_recipe` connection loop emits one result per spec. -/
theorem processRecipeConns_length (env : BatchEnv) :
    ∀ (l : List ConnSpec) (j : Nat) (am : List (String × String)),
      (processRecipeConns env j am l).length = l.length
  | [], _, _ => rfl
  | _ :: rest, j, am => by
      simp [processRecipeConns, processRecipeConns_length env rest (j + 1) am]

/-- The k-th `apply_recipe` connection result is the step function at the
k-th spec. -/
theorem processRecipeConns_get (env : BatchEnv) :
    ∀ (l : List ConnSpec) (j k : Nat) (am : List (String × String)) (c : ConnSpec),
      l.get? k = some c →
      (processRecipeConns env j am l).get? k = some (recipeConnStep env (j + k) am c)
  | [], _, k, _, _, h => by simp at h
  | d :: rest, j, 0, am, c, h => by
      obtain rfl : d = c := by simpa using h
      simp [processRecipeConns]
  | d :: rest, j, k + 1, am, c, h => by
      have := processRecipeConns_get env rest (j + 1) k am c (by simpa using h)
      simpa [processRecipeConns, Nat.add_assoc, Nat.add_comm 1 k] using this

/-- Claim C8 (confirmed): connection specs are processed against the alias
map produced by the already-finished node loop; a connection whose
from-alias OR to-alias is not registered yields a per-connection `error`
entry at its own position (`from ... not found` resp. `to ... not found`),
counted in `connections_failed`, while every other connection spec still
gets its own entry (the result list has one entry per spec) and node
processing is untouched — an unresolved alias never aborts the batch.
The final conjunct settles the same property for `apply_recipe`'s
connection loop, whose single combined alias check emits the
`alias not found` entry and continues. -/
theorem C8_unresolved_alias_entry (env : BatchEnv) (nodes : List NodeSpec)
    (conns : List ConnSpec) (j : Nat) (c : ConnSpec)
    (hj : conns.get? j = some c)
    (hun : aliasResolved (create_batch_graph env nodes []).node_map c.fa = false ∨
           aliasResolved (create_batch_graph env nodes []).node_map c.ta = false) :
    (create_batch_graph env nodes conns).conn_results.length = conns.length ∧
    (create_batch_graph env nodes conns).conn_results.get? j
      = some (.aliasErr
          (if aliasResolved (create_batch_graph env nodes []).node_map c.fa then
            "to '" ++ strOf c.ta ++ "' not found"
          else "from '" ++ strOf c.fa ++ "' not found")) ∧
    1 ≤ (create_batch_graph env nodes conns).connections_failed ∧
    (create_batch_graph env nodes conns).node_map
      = (create_batch_graph env nodes []).node_map ∧
    (create_batch_graph env nodes conns).nodes_created
      = (create_batch_graph env nodes []).nodes_created ∧
    (create_batch_graph env nodes conns).nodes_failed
      = (create_batch_graph env nodes []).nodes_failed ∧
    (∀ (am : List (String × String)) (cs : List ConnSpec) (k : Nat) (c' : ConnSpec),
        cs.get? k = some c' →
        aliasResolved am c'.fa = false ∨ aliasResolved am c'.ta = false →
        (processRecipeConns env 0 am cs).get? k = some (.aliasErr "alias not found") ∧
        (processRecipeConns env 0 am cs).length = cs.length ∧
        1 ≤ ((processRecipeConns env 0 am cs).filter (fun x => !x.isSuccess)).length) := by
  have hget := processConns_get env conns 0 j
    (processSpecs env 0 ⟨[], [], [], []⟩ nodes).aliasMap c hj
  have hstep : connStep env (0 + j)
      (processSpecs env 0 ⟨[], [], [], []⟩ nodes).aliasMap c
      = .aliasErr
          (if aliasResolved (create_batch_graph env nodes []).node_map c.fa then
            "to '" ++ strOf c.ta ++ "' not found"
          else "from '" ++ strOf c.fa ++ "' not found") := by
    cases hf : aliasResolved (create_batch_graph env nodes []).node_map c.fa with
    | false =>
        rw [if_neg (by simp [hf])]
        exact connStep_unresolved_from env (0 + j) _ c hf
    | true =>
        rw [if_pos (by simp [hf])]
        rcases hun with hun | hun
        · rw [hf] at hun; exact absurd hun (by simp)
        · exact connStep_unresolved_to env (0 + j) _ c hf hun
  have hentry : (create_batch_graph env nodes conns).conn_results.get? j
      = some (.aliasErr
          (if aliasResolved (create_batch_graph env nodes []).node_map c.fa then
            "to '" ++ strOf c.ta ++ "' not found"
          else "from '" ++ strOf c.fa ++ "' not found")) := by
    show (processConns env 0 (processSpecs env 0 ⟨[], [], [], []⟩ nodes).aliasMap
      conns).get? j = _
    rw [hget, hstep]
  refine ⟨processConns_length env conns 0 _, hentry, ?_, rfl, rfl, rfl, ?_⟩
  · have hmem := List.get?_mem hentry
    have hmf : ConnResult.aliasErr
        (if aliasResolved (create_batch_graph env nodes []).node_map c.fa then
          "to '" ++ strOf c.ta ++ "' not found"
        else "from '" ++ strOf c.fa ++ "' not found")
        ∈ (create_batch_graph env nodes conns).conn_results.filter
          (fun x => !x.isSuccess) :=
      List.mem_filter.mpr ⟨hmem, by simp [ConnResult.isSuccess]⟩
    exact List.length_pos.mpr (List.ne_nil_of_mem hmf)
  · intro am cs k c' hk hun'
    have hg := processRecipeConns_get env cs 0 k am c' hk
    have hs := recipeConnStep_unresolved env (0 + k) am c' hun'
    have he : (processRecipeConns env 0 am cs).get? k
        = some (.aliasErr "alias not found") := by rw [hg, hs]
    refine ⟨he, processRecipeConns_length env cs 0 am, ?_⟩
    have hmem := List.get?_mem he
    have hmf : ConnResult.aliasErr "alias not found"
        ∈ (processRecipeConns env 0 am cs).filter (fun x => !x.isSuccess) :=
      List.mem_filter.mpr ⟨hmem, by simp [ConnResult.isSuccess]⟩
    exact List.length_pos.mpr (List.ne_nil_of_mem hmf)

/-- Witness for C8_unresolved_alias_entry: one created node under alias
`"a"`; the connection goes from the registered `"a"` to the unregistered
alias `"missing"`, exercising the unresolved to-alias branch. -/
theorem C8_unresolved_alias_entry_witness :
    (create_batch_graph ⟨true, [], fun _ => some "node_0", fun _ => .ok ()⟩
        [⟨some "sbs::compositing::output", some "a", none, none, none⟩]
        [⟨some "a", none, some "missing", none, none, none⟩]).conn_results.length
      = [(⟨some "a", none, some "missing", none, none, none⟩ : ConnSpec)].length ∧
    (create_batch_graph ⟨true, [], fun _ => some "node_0", fun _ => .ok ()⟩
        [⟨some "sbs::compositing::output", some "a", none, none, none⟩]
        [⟨some "a", none, some "missing", none, none, none⟩]).conn_results.get? 0
      = some (.aliasErr
          (if aliasResolved
              (create_batch_graph ⟨true, [], fun _ => some "node_0", fun _ => .ok ()⟩
                [⟨some "sbs::compositing::output", some "a", none, none, none⟩] []).node_map
              (⟨some "a", none, some "missing", none, none, none⟩ : ConnSpec).fa then
            "to '" ++ strOf (⟨some "a", none, some "missing", none, none, none⟩
              : ConnSpec).ta ++ "' not found"
          else "from '" ++ strOf (⟨some "a", none, some "missing", none, none, none⟩
              : ConnSpec).fa ++ "' not found")) ∧
    1 ≤ (create_batch_graph ⟨true, [], fun _ => some "node_0", fun _ => .ok ()⟩
        [⟨some "sbs::compositing::output", some "a", none, none, none⟩]
        [⟨some "a", none, some "missing", none, none, none⟩]).connections_failed ∧
    (create_batch_graph ⟨true, [], fun _ => some "node_0", fun _ => .ok ()⟩
        [⟨some "sbs::compositing::output", some "a", none, none, none⟩]
        [⟨some "a", none, some "missing", none, none, none⟩]).node_map
      = (create_batch_graph ⟨true, [], fun _ => some "node_0", fun _ => .ok ()⟩
        [⟨some "sbs::compositing::output", some "a", none, none, none⟩] []).node_map ∧
    (create_batch_graph ⟨true, [], fun _ => some "node_0", fun _ => .ok ()⟩
        [⟨some "sbs::compositing::output", some "a", none, none, none⟩]
        [⟨some "a", none, some "missing", none, none, none⟩]).nodes_created
      = (create_batch_graph ⟨true, [], fun _ => some "node_0", fun _ => .ok ()⟩
        [⟨some "sbs::compositing::output", some "a", none, none, none⟩] []).nodes_created ∧
    (create_batch_graph ⟨true, [], fun _ => some "node_0", fun _ => .ok ()⟩
        [⟨some "sbs::compositing::output", some "a", none, none, none⟩]
        [⟨some "a", none, some "missing", none, none, none⟩]).nodes_failed
      = (create_batch_graph ⟨true, [], fun _ => some "node_0", fun _ => .ok ()⟩
        [⟨some "sbs::compositing::output", some "a", none, none, none⟩] []).nodes_failed ∧
    (∀ (am : List (String × String)) (cs : List ConnSpec) (k : Nat) (c' : ConnSpec),
        cs.get? k = some c' →
        aliasResolved am c'.fa = false ∨ aliasResolved am c'.ta = false →
        (processRecipeConns ⟨true, [], fun _ => some "node_0", fun _ => .ok ()⟩
            0 am cs).get? k = some (.aliasErr "alias not found") ∧
        (processRecipeConns ⟨true, [], fun _ => some "node_0", fun _ => .ok ()⟩
            0 am cs).length = cs.length ∧
        1 ≤ ((processRecipeConns ⟨true, [], fun _ => some "node_0", fun _ => .ok ()⟩
            0 am cs).filter (fun x => !x.isSuccess)).length) :=
  C8_unresolved_alias_entry
    ⟨true, [], fun _ => some "node_0", fun _ => .ok ()⟩
    [⟨some "sbs::compositing::output", some "a", none, none, none⟩]
    [⟨some "a", none, some "missing", none, none, none⟩] 0
    ⟨some "a", none, some "missing", none, none, none⟩ rfl (Or.inr (by decide))

/-- Claim C1, as stated, is false: the membership pre-check is best-effort,
not a hard precondition.  When the live-definitions query raises (modelled
by `defsQueryOk = false`; the source swallows the exception and leaves
`_known_defs` empty), a batch node spec whose kind is NOT in the live set
still issues a host creation call — here `"totally_bogus"` is not among
the live definitions, yet the creation call is traced and the node is
created. -/
theorem C1_counterexample :
    ("totally_bogus" : String) ∉ (["sbs::compositing::blend"] : List String) ∧
    (create_batch_graph
        ⟨false, ["sbs::compositing::blend"],
          fun i => some ("node_" ++ toString i), fun _ => .ok ()⟩
        [⟨some "totally_bogus", none, none, none, none⟩] []).create_calls
      = [.named "totally_bogus"] ∧
    (create_batch_graph
        ⟨false, ["sbs::compositing::blend"],
          fun i => some ("node_" ++ toString i), fun _ => .ok ()⟩
        [⟨some "totally_bogus", none, none, none, none⟩] []).nodes_created = 1 ∧
    (create_batch_graph
        ⟨false, ["sbs::compositing::blend"],
          fun i => some ("node_" ++ toString i), fun _ => .ok ()⟩
        [⟨some "totally_bogus", none, none, none, none⟩] []).nodes_failed = 0 := by
  refine ⟨by decide, by decide, by decide, by decide⟩

/-- Claim C1 (corrected): the kind pre-check does hold whenever the
definitions query yields a usable set — in the batch path, a named-kind
spec whose kind is not in the (successfully queried, nonempty) live set is
recorded as a typed failure with NO creation call issued; in `create_node`
a successful query likewise rejects an unknown kind before `newNode`.
When the query fails (or, in the batch paths, yields an empty set), the
check is skipped and creation is attempted anyway. -/
theorem C1_precheck_when_query_succeeds :
    (∀ (env : BatchEnv) (i : Nat) (st : BatchState) (s : NodeSpec),
        env.defsQueryOk = true → env.liveDefs ≠ [] →
        s.defnId ≠ "sbs::compositing::output" →
        truthy s.resource_url = none → truthy s.library_keyword = none →
        ¬ env.liveDefs.contains s.defnId →
        processSpec env i st s =
          { st with failedN := st.failedN ++ [(s.origAlias,
              "Unknown definition '" ++ s.defnId ++
              "'. Use library_keyword for library nodes.")] }) ∧
    (∀ (env : CreateNodeEnv) (d : String) (known : List String),
        env.defsQuery = some known → ¬ known.contains d →
        create_node env d =
          (.error ("Unknown definition '" ++ d ++
            "'. Library nodes require create_instance_node with pkg:// URL."), [])) := by
  constructor
  · intro env i st s hq hne hout hurl hkw hmem
    have hkd : env.knownDefs = env.liveDefs := by simp [BatchEnv.knownDefs, hq]
    have hcr : specCreation env.knownDefs s =
        .error ("Unknown definition '" ++ s.defnId ++
          "'. Use library_keyword for library nodes.") := by
      rw [specCreation, if_neg hout, hurl, hkw]
      simp only [hkd]
      rw [if_pos ⟨hne, hmem⟩]
    simp [processSpec, hcr]
  · intro env d known hq hmem
    rw [create_node, hq]
    simp [hmem]
    intro hd
    exact absurd hd (by simpa using hmem)

/-- Witness for C1_precheck_when_query_succeeds: both parts at a live set
`["sbs::compositing::blend"]` and the unknown kind `"bogus"`. -/
theorem C1_precheck_when_query_succeeds_witness :
    processSpec ⟨true, ["sbs::compositing::blend"], fun _ => none, fun _ => .ok ()⟩
        0 ⟨[], [], [], []⟩ ⟨some "bogus", none, none, none, none⟩ =
      { (⟨[], [], [], []⟩ : BatchState) with failedN := ([] : List (String × String)) ++
          [((⟨some "bogus", none, none, none, none⟩ : NodeSpec).origAlias,
            "Unknown definition '" ++
              (⟨some "bogus", none, none, none, none⟩ : NodeSpec).defnId ++
              "'. Use library_keyword for library nodes.")] } ∧
    create_node ⟨some ["sbs::compositing::blend"], some "n"⟩ "bogus" =
      (.error ("Unknown definition '" ++ "bogus" ++
        "'. Library nodes require create_instance_node with pkg:// URL."), []) :=
  ⟨C1_precheck_when_query_succeeds.1
      ⟨true, ["sbs::compositing::blend"], fun _ => none, fun _ => .ok ()⟩
      0 ⟨[], [], [], []⟩ ⟨some "bogus", none, none, none, none⟩
      rfl (by decide) (by decide) rfl rfl (by decide),
   C1_precheck_when_query_succeeds.2
      ⟨some ["sbs::compositing::blend"], some "n"⟩ "bogus"
      ["sbs::compositing::blend"] rfl (by decide)⟩

end SDMCP
